import Mathlib

/-!
Shallow embedding of the Convex backend of the book-recommendation app
(`src/unnamed/part_000`, schema in `src/convex/schema.ts`).

Modelling conventions:
* A user id is a `Nat`; the ambient authenticated identity
  (`getAuthUserId`) is an `Option Nat` argument (`none` = unauthenticated).
* The document store is a `DB`: the `books` and `recommendations` tables,
  plus a counter for fresh document ids.
* Mutations and actions that can throw return `Except Err _`, with `Err`
  following the spec's error taxonomy.
* The text-generation client is an external boundary: each action that
  calls it takes the outcome of that call as an explicit argument
  (`Except Unit _`, where `.error` is a transport-level failure) instead
  of performing I/O.  JSON parsing of the model output is likewise an
  external outcome (`parseError` when `JSON.parse` throws).
* `ctx.scheduler.runAfter` returns the id of the scheduled function and
  appends the task to a queue; a `SchedState` carries the database
  together with that queue.  This matches Convex semantics: scheduling
  never yields the scheduled function's result.
-/

/-- A row of the `books` table: `userId`, `title`, `author`, `rating`
(`v.number()`, no range validator), optional `genre`, plus the document id. -/
structure Book where
  id : Nat
  userId : Nat
  title : String
  author : String
  rating : Int
  genre : Option String
deriving Repr, DecidableEq

/-- A row of the `recommendations` table: `userId`, `bookTitle`, `reason`,
`timestamp`. -/
structure Recommendation where
  userId : Nat
  bookTitle : String
  reason : String
  timestamp : Int
deriving Repr, DecidableEq

/-- The document store: both application tables and a fresh-id counter. -/
structure DB where
  books : List Book
  recommendations : List Recommendation
  nextId : Nat
deriving Repr, DecidableEq

/-- Error taxonomy of the spec: `Unauthenticated`, `NotFoundOrForbidden`,
`UpstreamGenerationFailure`, `MalformedGenerationOutput`. -/
inductive Err where
  | unauthenticated
  | notFoundOrForbidden
  | upstreamGenerationFailure
  | malformedGenerationOutput
deriving Repr, DecidableEq

/-- A task handed to `ctx.scheduler.runAfter`: either the `detectGenre`
action (with its `title`/`author` arguments) or the
`generateRecommendations` action (with its `userId` argument). -/
inductive ScheduledTask where
  | detectGenreTask (title author : String)
  | generateRecommendationsTask (userId : Nat)
deriving Repr, DecidableEq

/-- Database plus the scheduler's queue of pending background tasks and
the counter used to mint scheduled-function ids. -/
structure SchedState where
  db : DB
  scheduled : List (Nat × ScheduledTask)
  nextJobId : Nat
deriving Repr, DecidableEq

/-- The string form of a Convex scheduled-function id (an opaque id in the
`_scheduled_functions` system table). -/
def schedIdStr (n : Nat) : String := "_scheduled_functions/" ++ toString n

/-- Models `ctx.scheduler.runAfter(0, task, args)`: appends the task to the
queue and returns the new scheduled-function id (NOT the task's result). -/
def runAfter (task : ScheduledTask) (st : SchedState) : String × SchedState :=
  (schedIdStr st.nextJobId,
   { st with
       scheduled := st.scheduled ++ [(st.nextJobId, task)],
       nextJobId := st.nextJobId + 1 })

/-- Models JavaScript `String.prototype.trim()`: drop leading and trailing
whitespace.  (Defined over the character list so that concrete instances
reduce inside the kernel.) -/
def jsTrim (s : String) : String :=
  ⟨((s.data.dropWhile Char.isWhitespace).reverse.dropWhile Char.isWhitespace).reverse⟩

/-- Models the `detectGenre` action.  The argument is the outcome of the
chat-completion call: `.error` is a transport-level failure (the promise
rejects, uncaught); `.ok content` carries
`completion.choices[0].message.content` (`none` when absent).  The handler
returns `content?.trim() || "Fiction"`. -/
def detectGenre (response : Except Unit (Option String)) : Except Err String :=
  match response with
  | .error _ => .error .upstreamGenerationFailure
  | .ok none => .ok "Fiction"
  | .ok (some content) =>
      .ok (if jsTrim content = "" then "Fiction" else jsTrim content)

/-- Models running the scheduled `detectGenre` background task: the action
runs detached, its return value is consumed by nobody, and it performs no
database write, so the database is returned unchanged on success. -/
def runDetectGenreTask (response : Except Unit (Option String)) (db : DB) :
    Except Err DB :=
  match detectGenre response with
  | .error e => .error e
  | .ok _ => .ok db

/-- One `{title, author}` pair of the `searchBooks` response. -/
structure SearchSuggestion where
  title : String
  author : String
deriving Repr, DecidableEq

/-- Outcome of parsing the `searchBooks` model output:
`parseError` when `JSON.parse` (or the subsequent property access) throws;
otherwise the parsed object's `suggestions` field, `none` when the field
is absent (so that `result.suggestions || []` falls back to `[]`). -/
inductive ParsedSearch where
  | parseError
  | parsed (suggestions : Option (List SearchSuggestion))
deriving Repr, DecidableEq

/-- Observable outcome of a `searchBooks` call: the returned list, whether
the text-generation client was invoked, and whether a parse failure was
logged via `console.error`. -/
structure SearchOutcome where
  results : List SearchSuggestion
  invokedClient : Bool
  loggedParseFailure : Bool
deriving Repr, DecidableEq

/-- Models the `searchBooks` action.  Queries shorter than 2 characters
return `[]` before the client is called.  Otherwise the completion call
runs: a transport failure propagates uncaught; a parse failure is caught,
logged, and converted to `[]`; a parsed object yields its `suggestions`
or `[]`. -/
def searchBooks (query : String) (response : Except Unit ParsedSearch) :
    Except Err SearchOutcome :=
  if query.length < 2 then .ok ⟨[], false, false⟩
  else
    match response with
    | .error _ => .error .upstreamGenerationFailure
    | .ok .parseError => .ok ⟨[], true, true⟩
    | .ok (.parsed none) => .ok ⟨[], true, false⟩
    | .ok (.parsed (some suggs)) => .ok ⟨suggs, true, false⟩

/-- Ownership test used by the `by_user` index lookups. -/
def bookOwnedBy (userId : Nat) (b : Book) : Bool := b.userId == userId

/-- Ownership test for recommendation rows (`by_user_recent` index). -/
def recOwnedBy (userId : Nat) (r : Recommendation) : Bool := r.userId == userId

/-- Ascending timestamp order backing the `by_user_recent` index. -/
def recOrder (a b : Recommendation) : Bool := decide (a.timestamp ≤ b.timestamp)

/-- Models the `listBooks` query: unauthenticated callers get `[]`;
otherwise all books of the caller (`by_user` index scan). -/
def listBooks (identity : Option Nat) (db : DB) : List Book :=
  match identity with
  | none => []
  | some userId => db.books.filter (bookOwnedBy userId)

/-- Models the `getRecommendations` query: unauthenticated callers get
`[]`; otherwise the caller's recommendations read through the
`by_user_recent` index in descending order, limited by `.take(3)`.  The
index scan is modelled as a stable ascending sort by timestamp followed
by `reverse`. -/
def getRecommendations (identity : Option Nat) (db : DB) : List Recommendation :=
  match identity with
  | none => []
  | some userId =>
      (((db.recommendations.filter (recOwnedBy userId)).mergeSort recOrder).reverse).take 3

/-- Models the `getUserBooks` query: its handler reads the given user's
books and performs no identity check (the ambient identity is ignored). -/
def getUserBooks (identity : Option Nat) (userId : Nat) (db : DB) :
    Except Err (List Book) :=
  .ok (db.books.filter (bookOwnedBy userId))

/-- Models the `saveRecommendation` mutation: its handler inserts the row
and performs no identity check (the ambient identity is ignored). -/
def saveRecommendation (identity : Option Nat) (userId : Nat)
    (bookTitle reason : String) (timestamp : Int) (db : DB) : Except Err DB :=
  .ok { db with
          recommendations := db.recommendations ++ [⟨userId, bookTitle, reason, timestamp⟩] }

/-- One `{title, reason}` pair of the `generateRecommendations` response. -/
structure RecSuggestion where
  title : String
  reason : String
deriving Repr, DecidableEq

/-- Outcome of parsing the `generateRecommendations` model output:
`parseError` when `JSON.parse` throws (uncaught here); `parsed none` when
the parsed object lacks a `suggestions` array (the `for..of` over
`undefined` then throws); otherwise the suggestion list. -/
inductive ParsedRecs where
  | parseError
  | parsed (suggestions : Option (List RecSuggestion))
deriving Repr, DecidableEq

/-- Sequential `ctx.runMutation(api.books.saveRecommendation, ...)` calls,
one per suggestion, all sharing one timestamp. -/
def saveAll (identity : Option Nat) (userId : Nat) (timestamp : Int) :
    List RecSuggestion → DB → Except Err DB
  | [], db => .ok db
  | s :: rest, db =>
      match saveRecommendation identity userId s.title s.reason timestamp db with
      | .error e => .error e
      | .ok db2 => saveAll identity userId timestamp rest db2

/-- Models the `generateRecommendations` action: reads the user's books
via `getUserBooks`; returns immediately when the library is empty;
otherwise consumes the completion outcome — transport failure propagates,
a malformed response throws (uncaught `MalformedGenerationOutput`), and a
well-formed response inserts one recommendation per suggestion with a
shared timestamp. -/
def generateRecommendations (identity : Option Nat) (userId : Nat)
    (response : Except Unit ParsedRecs) (timestamp : Int) (db : DB) :
    Except Err DB :=
  match getUserBooks identity userId db with
  | .error e => .error e
  | .ok books =>
      if books.length = 0 then .ok db
      else
        match response with
        | .error _ => .error .upstreamGenerationFailure
        | .ok .parseError => .error .malformedGenerationOutput
        | .ok (.parsed none) => .error .malformedGenerationOutput
        | .ok (.parsed (some suggs)) => saveAll identity userId timestamp suggs db

/-- Models the `addBook` mutation.  After the identity check, the stored
`genre` is `args.genre || await ctx.scheduler.runAfter(0, api.books.detectGenre, ...)`:
when `args.genre` is absent (or `""`, which is falsy under `||`), the
mutation schedules the `detectGenre` action and stores the *scheduled
function id* that `runAfter` returns.  It then inserts the book and
schedules `generateRecommendations`. -/
def addBook (identity : Option Nat) (title author : String) (rating : Int)
    (genreArg : Option String) (st : SchedState) : Except Err SchedState :=
  match identity with
  | none => .error .unauthenticated
  | some userId =>
      let resolved : String × SchedState :=
        match genreArg with
        | some g =>
            if g = "" then runAfter (.detectGenreTask title author) st else (g, st)
        | none => runAfter (.detectGenreTask title author) st
      let genre := resolved.1
      let st1 := resolved.2
      let newBook : Book :=
        { id := st1.db.nextId, userId := userId, title := title,
          author := author, rating := rating, genre := some genre }
      let st2 : SchedState :=
        { st1 with
            db := { st1.db with
                      books := st1.db.books ++ [newBook],
                      nextId := st1.db.nextId + 1 } }
      let after := runAfter (.generateRecommendationsTask userId) st2
      .ok after.2

/-- Models the `removeBook` mutation: identity check, `ctx.db.get` on the
target id, owner check, then `ctx.db.delete`. -/
def removeBook (identity : Option Nat) (bookId : Nat) (db : DB) :
    Except Err DB :=
  match identity with
  | none => .error .unauthenticated
  | some userId =>
      match db.books.find? (fun b => b.id == bookId) with
      | none => .error .notFoundOrForbidden
      | some book =>
          if book.userId == userId then
            .ok { db with books := db.books.filter (fun b => !(b.id == bookId)) }
          else .error .notFoundOrForbidden

/-- Models the `updateBook` mutation: identity check, `ctx.db.get` on the
target id, owner check, then `ctx.db.patch` of title/author/rating. -/
def updateBook (identity : Option Nat) (bookId : Nat) (title author : String)
    (rating : Int) (db : DB) : Except Err DB :=
  match identity with
  | none => .error .unauthenticated
  | some userId =>
      match db.books.find? (fun b => b.id == bookId) with
      | none => .error .notFoundOrForbidden
      | some book =>
          if book.userId == userId then
            .ok { db with
                    books := db.books.map (fun b =>
                      if b.id == bookId then
                        { b with title := title, author := author, rating := rating }
                      else b) }
          else .error .notFoundOrForbidden

/-- Database observed after a fallible mutation: an error leaves the
caller's database untouched. -/
def dbAfter (result : Except Err DB) (db : DB) : DB :=
  match result with
  | .ok d => d
  | .error _ => db

/-- Database observed after a fallible scheduling mutation. -/
def schedDbAfter (result : Except Err SchedState) (st : SchedState) : DB :=
  match result with
  | .ok s => s.db
  | .error _ => st.db

/-- The rating range `[1,5]` claimed by the spec, as a decidable check. -/
def ratingOk (b : Book) : Bool := decide (1 ≤ b.rating) && decide (b.rating ≤ 5)

/-- Decidable form of "the book `bookId` is not a caller-owned record". -/
def notOwnedTarget (userId bookId : Nat) (b : Book) : Bool :=
  !(b.id == bookId) || !(b.userId == userId)

/-- Decidable descending-by-timestamp check on a recommendation list. -/
def sortedByTimestampDesc : List Recommendation → Bool
  | [] => true
  | [_] => true
  | a :: b :: rest =>
      decide (b.timestamp ≤ a.timestamp) && sortedByTimestampDesc (b :: rest)

/-- The empty store. -/
def emptyDB : DB := { books := [], recommendations := [], nextId := 0 }

/-- The initial state: empty store, empty scheduler queue. -/
def st0 : SchedState := { db := emptyDB, scheduled := [], nextJobId := 0 }

/-- The store after an authenticated user `0` adds Dune with no genre:
one book whose stored genre is the scheduled-function id. -/
def duneDB : DB :=
  { books := [⟨0, 0, "Dune", "Frank Herbert", 5, some (schedIdStr 0)⟩],
    recommendations := [], nextId := 1 }

/-- A store holding a single book owned by user `0`. -/
def oneBookDB : DB :=
  { books := [⟨0, 0, "B", "C", 3, none⟩], recommendations := [], nextId := 1 }

/-- A store holding a single book owned by user `1` (not by caller `0`). -/
def otherUserDB : DB :=
  { books := [⟨0, 1, "T", "A", 3, none⟩], recommendations := [], nextId := 1 }

/-- C6: whenever the text-generation call succeeds with empty or absent
content, `detectGenre` returns the literal `"Fiction"`; and any successful
`detectGenre` result is a non-empty genre label. -/
theorem detectGenre_fallback_and_nonempty (content : Option String) (g : String)
    (h : detectGenre (.ok content) = .ok g) :
    ((content.map jsTrim).getD "" = "" → g = "Fiction") ∧ g ≠ "" := by
  cases content with
  | none =>
      simp only [detectGenre, Except.ok.injEq] at h
      subst h
      exact ⟨fun _ => rfl, by decide⟩
  | some s =>
      simp only [detectGenre, Except.ok.injEq] at h
      by_cases hs : jsTrim s = ""
      · rw [if_pos hs] at h
        subst h
        exact ⟨fun _ => rfl, by decide⟩
      · rw [if_neg hs] at h
        subst h
        exact ⟨fun hc => absurd hc hs, hs⟩

/-- Witness for C6 at `content = none`. -/
theorem detectGenre_fallback_and_nonempty_witness :
    (((none : Option String).map jsTrim).getD "" = "" → "Fiction" = "Fiction") ∧
    "Fiction" ≠ "" :=
  detectGenre_fallback_and_nonempty none "Fiction" rfl

/-- C8: a query of length < 2 makes `searchBooks` return the empty list
without invoking the text-generation client, for any client outcome. -/
theorem searchBooks_short_query_no_client (query : String)
    (response : Except Unit ParsedSearch) (h : query.length < 2) :
    searchBooks query response = .ok ⟨[], false, false⟩ := by
  simp [searchBooks, if_pos h]

/-- Witness for C8 at query `"a"`. -/
theorem searchBooks_short_query_no_client_witness :
    searchBooks "a" (.ok .parseError) = .ok ⟨[], false, false⟩ :=
  searchBooks_short_query_no_client "a" (.ok .parseError) (by decide)

/-- C9: with a query of length ≥ 2, a model response that fails JSON
parsing is logged and converted to the empty list; the call still
succeeds, so the parse error never propagates to the caller. -/
theorem searchBooks_parse_failure_logged_empty (query : String)
    (h : 2 ≤ query.length) :
    searchBooks query (.ok .parseError) = .ok ⟨[], true, true⟩ := by
  rw [searchBooks, if_neg (by omega)]

/-- Witness for C9 at query `"du"`. -/
theorem searchBooks_parse_failure_logged_empty_witness :
    searchBooks "du" (.ok .parseError) = .ok ⟨[], true, true⟩ :=
  searchBooks_parse_failure_logged_empty "du" (by decide)

/-- C1 (code bug): when the genre is omitted, `addBook` does not store the
`detectGenre` result.  On the Dune example the classifier result would be
`"Science Fiction"`, but the inserted record's genre is the scheduled
function id returned by `ctx.scheduler.runAfter`, which differs from it. -/
theorem addBook_stores_job_id_not_detected_genre :
    detectGenre (.ok (some "Science Fiction")) = .ok "Science Fiction" ∧
    (schedDbAfter (addBook (some 0) "Dune" "Frank Herbert" 5 none st0) st0).books.map
        Book.genre = [some (schedIdStr 0)] ∧
    schedIdStr 0 ≠ "Science Fiction" := by
  refine ⟨rfl, rfl, by decide⟩

/-- C2 (code bug): with the genre omitted, `addBook` commits the insert and
returns successfully before `detectGenre` ever runs; a transport-level
failure of the scheduled `detectGenre` call fails only the detached
background task and leaves the inserted book in place. -/
theorem addBook_commits_despite_detect_transport_failure :
    addBook (some 0) "Dune" "Frank Herbert" 5 none st0
      = .ok ⟨duneDB, [(0, .detectGenreTask "Dune" "Frank Herbert"),
                      (1, .generateRecommendationsTask 0)], 2⟩ ∧
    runDetectGenreTask (.error ()) duneDB = .error .upstreamGenerationFailure ∧
    dbAfter (runDetectGenreTask (.error ()) duneDB) duneDB = duneDB ∧
    duneDB.books.length = 1 :=
  ⟨rfl, rfl, rfl, rfl⟩

/-- C3 counterexample: the `saveRecommendation` mutation performs no
identity check at all — called with no authenticated identity it succeeds
and inserts a record instead of failing with `Unauthenticated`. -/
theorem saveRecommendation_unauthenticated_succeeds :
    saveRecommendation none 0 "Dune" "similar themes" 5 emptyDB
      = .ok { emptyDB with recommendations := [⟨0, "Dune", "similar themes", 5⟩] } ∧
    saveRecommendation none 0 "Dune" "similar themes" 5 emptyDB
      ≠ .error .unauthenticated := by
  refine ⟨rfl, by simp [saveRecommendation]⟩

/-- C3 as amended: `addBook`, `updateBook` and `removeBook` check the
identity first and fail with `Unauthenticated` when it is absent;
`listBooks` and `getRecommendations` instead return the empty list when
it is absent; `saveRecommendation` and `getUserBooks` perform no identity
check and succeed regardless. -/
theorem auth_checks_by_operation (title author : String) (rating : Int)
    (genreArg : Option String) (st : SchedState) (bookId userId : Nat)
    (bookTitle reason : String) (timestamp : Int) (db : DB) :
    addBook none title author rating genreArg st = .error .unauthenticated ∧
    updateBook none bookId title author rating db = .error .unauthenticated ∧
    removeBook none bookId db = .error .unauthenticated ∧
    listBooks none db = [] ∧
    getRecommendations none db = [] ∧
    saveRecommendation none userId bookTitle reason timestamp db
      = .ok { db with
                recommendations := db.recommendations
                  ++ [⟨userId, bookTitle, reason, timestamp⟩] } ∧
    getUserBooks none userId db = .ok (db.books.filter (bookOwnedBy userId)) :=
  ⟨rfl, rfl, rfl, rfl, rfl, rfl, rfl⟩

/-- C4 counterexample: `addBook` performs no range validation on the
rating, so an authenticated call with rating `6` yields a reachable state
holding a persisted rating outside `[1,5]`. -/
theorem addBook_stores_rating_six :
    (schedDbAfter (addBook (some 0) "T" "A" 6 (some "Horror") st0) st0).books.all
        ratingOk = false := rfl

/-- C7: for a user whose library is empty, `generateRecommendations`
returns successfully without touching the store, whatever the model
outcome and timestamp are — zero recommendation records are created. -/
theorem generateRecommendations_empty_library_noop (identity : Option Nat)
    (userId : Nat) (response : Except Unit ParsedRecs) (timestamp : Int)
    (db : DB) (h : db.books.filter (bookOwnedBy userId) = []) :
    generateRecommendations identity userId response timestamp db = .ok db := by
  simp [generateRecommendations, getUserBooks, h]

/-- Witness for C7 on the empty store. -/
theorem generateRecommendations_empty_library_noop_witness :
    generateRecommendations (some 0) 0 (.ok .parseError) 0 emptyDB = .ok emptyDB :=
  generateRecommendations_empty_library_noop (some 0) 0 (.ok .parseError) 0 emptyDB rfl


/-- C4 as amended: neither `addBook` nor `updateBook` validates the rating
range, so the `[1,5]` invariant holds only conditionally — when the stored
ratings already lie in `[1,5]` and the caller-supplied ratings do too,
both mutations preserve the invariant. -/
theorem rating_invariant_preserved_by_valid_inputs (identity : Option Nat)
    (title author : String) (rating : Int) (genreArg : Option String)
    (st st' : SchedState) (bookId : Nat) (title2 author2 : String)
    (rating2 : Int) (db db' : DB)
    (hr1 : 1 ≤ rating) (hr2 : rating ≤ 5) (hs1 : 1 ≤ rating2) (hs2 : rating2 ≤ 5)
    (hinvA : st.db.books.all ratingOk = true) (hinvU : db.books.all ratingOk = true)
    (hadd : addBook identity title author rating genreArg st = .ok st')
    (hupd : updateBook identity bookId title2 author2 rating2 db = .ok db') :
    st'.db.books.all ratingOk = true ∧ db'.books.all ratingOk = true := by
  constructor
  · cases identity with
    | none => exact absurd hadd (by simp [addBook])
    | some u =>
        have hall : ∀ g : String,
            (st.db.books
              ++ [Book.mk st.db.nextId u title author rating (some g)]).all
                ratingOk = true := by
          intro g
          simp only [List.all_append, hinvA, Bool.true_and, List.all_cons,
            List.all_nil, Bool.and_true, ratingOk, Bool.and_eq_true,
            decide_eq_true_eq]
          exact ⟨hr1, hr2⟩
        cases genreArg with
        | none =>
            simp only [addBook, runAfter, Except.ok.injEq] at hadd
            subst hadd
            exact hall _
        | some g =>
            by_cases hg : g = ""
            · subst hg
              simp only [addBook, runAfter, if_pos rfl, Except.ok.injEq] at hadd
              subst hadd
              exact hall _
            · simp only [addBook, runAfter, if_neg hg, Except.ok.injEq] at hadd
              subst hadd
              exact hall _
  · cases identity with
    | none => exact absurd hupd (by simp [updateBook])
    | some u =>
        simp only [updateBook] at hupd
        split at hupd
        · exact absurd hupd (by simp)
        · split at hupd
          · rw [Except.ok.injEq] at hupd
            subst hupd
            rw [List.all_eq_true]
            intro b hb
            obtain ⟨c, hc, rfl⟩ := List.mem_map.mp hb
            by_cases hcid : (c.id == bookId) = true
            · rw [if_pos hcid]
              simp only [ratingOk, Bool.and_eq_true, decide_eq_true_eq]
              exact ⟨hs1, hs2⟩
            · rw [if_neg hcid]
              exact List.all_eq_true.mp hinvU c hc
          · exact absurd hupd (by simp)

/-- Witness for C4-as-amended: a valid add (rating 5) onto the empty store
and a valid edit (rating 4) of a one-book store both keep every persisted
rating in range. -/
theorem rating_invariant_preserved_by_valid_inputs_witness :
    (SchedState.mk (DB.mk [⟨0, 0, "T", "A", 5, some "SF"⟩] [] 1)
        [(0, .generateRecommendationsTask 0)] 1).db.books.all ratingOk = true ∧
    (DB.mk [⟨0, 0, "T2", "A2", 4, none⟩] [] 1).books.all ratingOk = true :=
  rating_invariant_preserved_by_valid_inputs (some 0) "T" "A" 5 (some "SF")
    st0 ⟨⟨[⟨0, 0, "T", "A", 5, some "SF"⟩], [], 1⟩,
         [(0, .generateRecommendationsTask 0)], 1⟩
    0 "T2" "A2" 4 oneBookDB ⟨[⟨0, 0, "T2", "A2", 4, none⟩], [], 1⟩
    (by decide) (by decide) (by decide) (by decide) rfl rfl rfl rfl

/-- C10: an authenticated `removeBook` or `updateBook` call whose target
id has no caller-owned record (absent id, or a record owned by another
user) fails with `NotFoundOrForbidden` and leaves the store unchanged. -/
theorem remove_update_not_owned_fails (userId bookId : Nat)
    (title author : String) (rating : Int) (db : DB)
    (h : db.books.all (notOwnedTarget userId bookId) = true) :
    removeBook (some userId) bookId db = .error .notFoundOrForbidden ∧
    updateBook (some userId) bookId title author rating db
      = .error .notFoundOrForbidden ∧
    dbAfter (removeBook (some userId) bookId db) db = db ∧
    dbAfter (updateBook (some userId) bookId title author rating db) db = db := by
  have key : ∀ book : Book,
      db.books.find? (fun b => b.id == bookId) = some book →
      (book.userId == userId) = false := by
    intro book hfind
    have hmem := List.mem_of_find?_eq_some hfind
    have hid := List.find?_some hfind
    simp only at hid
    have hno := List.all_eq_true.mp h book hmem
    simp only [notOwnedTarget, hid, Bool.not_true, Bool.false_or,
      Bool.not_eq_true'] at hno
    exact hno
  have hrem : removeBook (some userId) bookId db = .error .notFoundOrForbidden := by
    simp only [removeBook]
    cases hfind : db.books.find? (fun b => b.id == bookId) with
    | none => rfl
    | some book => simp [key book hfind]
  have hupd : updateBook (some userId) bookId title author rating db
      = .error .notFoundOrForbidden := by
    simp only [updateBook]
    cases hfind : db.books.find? (fun b => b.id == bookId) with
    | none => rfl
    | some book => simp [key book hfind]
  exact ⟨hrem, hupd, by rw [hrem]; rfl, by rw [hupd]; rfl⟩

/-- Witness for C10: caller `0` targets the book of user `1`. -/
theorem remove_update_not_owned_fails_witness :
    removeBook (some 0) 0 otherUserDB = .error .notFoundOrForbidden ∧
    updateBook (some 0) 0 "T2" "A2" 4 otherUserDB
      = .error .notFoundOrForbidden ∧
    dbAfter (removeBook (some 0) 0 otherUserDB) otherUserDB = otherUserDB ∧
    dbAfter (updateBook (some 0) 0 "T2" "A2" 4 otherUserDB) otherUserDB
      = otherUserDB :=
  remove_update_not_owned_fails 0 0 "T2" "A2" 4 otherUserDB rfl

/-- Pairwise-descending timestamps imply the boolean descending check. -/
theorem sortedByTimestampDesc_of_pairwise :
    ∀ {l : List Recommendation},
      l.Pairwise (fun a b => b.timestamp ≤ a.timestamp) →
      sortedByTimestampDesc l = true
  | [], _ => rfl
  | [_], _ => rfl
  | a :: b :: rest, h => by
      rw [List.pairwise_cons] at h
      have hab : b.timestamp ≤ a.timestamp := h.1 b (List.mem_cons_self b rest)
      have htail := sortedByTimestampDesc_of_pairwise h.2
      simp [sortedByTimestampDesc, hab, htail]

/-- C5: for any store and any authenticated caller, `getRecommendations`
returns at most 3 records, all owned by the caller, in descending
timestamp order. -/
theorem getRecommendations_at_most_three_owned_sorted (db : DB) (userId : Nat) :
    (getRecommendations (some userId) db).length ≤ 3 ∧
    (getRecommendations (some userId) db).all (recOwnedBy userId) = true ∧
    sortedByTimestampDesc (getRecommendations (some userId) db) = true := by
  have hunfold : getRecommendations (some userId) db =
      (((db.recommendations.filter (recOwnedBy userId)).mergeSort
          recOrder).reverse).take 3 := rfl
  refine ⟨?_, ?_, ?_⟩
  · rw [hunfold]
    exact List.length_take_le _ _
  · rw [hunfold, List.all_eq_true]
    intro x hx
    have hx1 : x ∈ ((db.recommendations.filter (recOwnedBy userId)).mergeSort
        recOrder).reverse := List.take_subset _ _ hx
    have hx2 : x ∈ (db.recommendations.filter (recOwnedBy userId)).mergeSort
        recOrder := List.mem_reverse.mp hx1
    have hx3 : x ∈ db.recommendations.filter (recOwnedBy userId) :=
      (List.mergeSort_perm _ _).mem_iff.mp hx2
    exact (List.mem_filter.mp hx3).2
  · rw [hunfold]
    have htrans : ∀ a b c : Recommendation, recOrder a b = true →
        recOrder b c = true → recOrder a c = true := by
      intro a b c hab hbc
      simp only [recOrder, decide_eq_true_eq] at hab hbc ⊢
      omega
    have htotal : ∀ a b : Recommendation,
        (recOrder a b || recOrder b a) = true := by
      intro a b
      simp only [recOrder, Bool.or_eq_true, decide_eq_true_eq]
      exact Int.le_total _ _
    have hsorted := List.sorted_mergeSort htrans htotal
      (db.recommendations.filter (recOwnedBy userId))
    have hasc : (db.recommendations.filter (recOwnedBy userId)).mergeSort
        recOrder |>.Pairwise (fun a b => a.timestamp ≤ b.timestamp) :=
      hsorted.imp (by intro a b hab; exact of_decide_eq_true hab)
    have hrev : (((db.recommendations.filter (recOwnedBy userId)).mergeSort
        recOrder).reverse).Pairwise (fun a b => b.timestamp ≤ a.timestamp) := by
      rw [List.pairwise_reverse]
      exact hasc
    exact sortedByTimestampDesc_of_pairwise
      (hrev.sublist (List.take_sublist 3 _))
